import Mathlib

/-!
Verification of the upload/analysis orchestration and period-synchronization
core of the `sage_app_ia` dashboard.

The definitions below are a shallow embedding of the JavaScript source:

* `UploadSection.jsx` — `handleUploadClick` (validation), the confirmation
  dialog, and `performUploadAndAnalyze` (upload → ETL trigger → store write →
  event publish);
* `AlertsPanel.jsx` / `Dashboard.jsx` / `AnalyticsSummary.jsx` — the stored
  period readers and the `analysis-period-changed` event handlers;
* `services/uploadService.js` (`uploadExcels`) and
  `services/aiService.js` (`getMonthSummary`) — the request builders.

Browser state (`localStorage` entries, the `window` event target) is passed
explicitly.  JavaScript numbers occurring here are naturals (years, counts);
`NaN` is modelled by `none` in `JsNum := Option Nat`, and `String(n)` /
`Number(s)` are modelled by an executable decimal printer/parser pair.
-/

namespace SageApp

/-- Truthiness of a JS string: `""` is falsy, everything else truthy. -/
def jsTruthyStr (s : String) : Bool := s ≠ ""

/-- Truthiness of a nullable JS string (`null`/`undefined` = `none`). -/
def jsTruthyOptStr : Option String → Bool
  | some s => s ≠ ""
  | none => false

/-- A JS number restricted to the naturals appearing in this app;
`none` models `NaN`. -/
abbrev JsNum := Option Nat

/-- Truthiness of a `JsNum`: `0` and `NaN` are falsy. -/
def jsTruthyNum : JsNum → Bool
  | some n => n ≠ 0
  | none => false

/-- Truthiness of a possibly-missing JS number field (`undefined`, `0` falsy). -/
def jsTruthyOptNat : Option Nat → Bool
  | some n => n ≠ 0
  | none => false

/-- Decimal digits of `n`, least significant first, with explicit fuel so the
recursion is structural (the kernel can evaluate it).  With `n ≤ fuel` this
agrees with `Nat.digits 10 n`. -/
def natToRevDigitsAux : Nat → Nat → List Nat
  | 0, _ => []
  | _ + 1, 0 => []
  | fuel + 1, n + 1 => ((n + 1) % 10) :: natToRevDigitsAux fuel ((n + 1) / 10)

/-- Model of JS `String(n)` for a natural `n`: the decimal numeral. -/
def jsOfNat (n : Nat) : String :=
  if n = 0 then "0"
  else ⟨((natToRevDigitsAux n n).reverse).map Nat.digitChar⟩

/-- Model of JS `Number(s)` on strings: `some` of the value on a non-empty
all-digit string, `none` (`NaN`) otherwise. -/
def jsToNat (s : String) : Option Nat :=
  if s.data.isEmpty then none
  else if s.data.all Char.isDigit then
    some (s.data.foldl (fun a c => a * 10 + (c.toNat - 48)) 0)
  else none

theorem natToRevDigitsAux_eq_digits (fuel : Nat) :
    ∀ n, n ≤ fuel → natToRevDigitsAux fuel n = Nat.digits 10 n := by
  induction fuel with
  | zero =>
    intro n hn
    interval_cases n
    simp [natToRevDigitsAux]
  | succ f ih =>
    intro n hn
    match n with
    | 0 => simp [natToRevDigitsAux]
    | m + 1 =>
      have hdiv : (m + 1) / 10 ≤ f := by
        have h1 : (m + 1) / 10 < m + 1 := Nat.div_lt_self (Nat.succ_pos m) (by omega)
        omega
      rw [natToRevDigitsAux, ih _ hdiv,
        Nat.digits_def' (by omega : 1 < 10) (Nat.succ_pos m)]

theorem digitChar_isDigit_and_val {d : Nat} (h : d < 10) :
    (Nat.digitChar d).isDigit = true ∧ (Nat.digitChar d).toNat - 48 = d := by
  interval_cases d <;> exact ⟨by decide, by decide⟩

theorem foldl_rev_digitChar (ds : List Nat) (h : ∀ d ∈ ds, d < 10) :
    ((ds.map Nat.digitChar).reverse).foldl (fun a c => a * 10 + (c.toNat - 48)) 0
      = Nat.ofDigits 10 ds := by
  induction ds with
  | nil => simp [Nat.ofDigits]
  | cons d t ih =>
    have hd : d < 10 := h d (List.mem_cons_self d t)
    have ht : ∀ x ∈ t, x < 10 := fun x hx => h x (List.mem_cons_of_mem d hx)
    simp only [List.map_cons, List.reverse_cons, List.foldl_append, List.foldl_cons,
      List.foldl_nil, ih ht, Nat.ofDigits_cons]
    rw [(digitChar_isDigit_and_val hd).2]
    ring

/-- `Number(String(n)) = n`: round-trip of the modelled JS conversions. -/
theorem jsToNat_jsOfNat (n : Nat) : jsToNat (jsOfNat n) = some n := by
  by_cases h0 : n = 0
  · subst h0; decide
  · have hds : natToRevDigitsAux n n = Nat.digits 10 n :=
      natToRevDigitsAux_eq_digits n n le_rfl
    have hne : Nat.digits 10 n ≠ [] := Nat.digits_ne_nil_iff_ne_zero.mpr h0
    have hlt : ∀ d ∈ Nat.digits 10 n, d < 10 := fun d hd =>
      Nat.digits_lt_base (by omega) hd
    have hdigit : ∀ c ∈ (Nat.digits 10 n).map Nat.digitChar, c.isDigit = true := by
      intro c hc
      rcases List.mem_map.mp hc with ⟨d, hd, rfl⟩
      exact (digitChar_isDigit_and_val (hlt d hd)).1
    rw [jsOfNat, if_neg h0, jsToNat]
    simp only [hds, List.map_reverse]
    rw [if_neg, if_pos]
    · rw [foldl_rev_digitChar _ hlt, Nat.ofDigits_digits]
    · simp only [List.all_eq_true, List.mem_reverse]
      exact fun c hc => hdigit c hc
    · simp only [List.isEmpty_eq_true, List.reverse_eq_nil_iff, List.map_eq_nil_iff,
        hne, not_false_eq_true]

/-- `String(n)` is never the empty string (it is truthy in JS). -/
theorem jsOfNat_ne_empty (n : Nat) : jsOfNat n ≠ "" := by
  by_cases h0 : n = 0
  · subst h0; decide
  · have hne : Nat.digits 10 n ≠ [] := Nat.digits_ne_nil_iff_ne_zero.mpr h0
    rw [jsOfNat, if_neg h0]
    have : ((natToRevDigitsAux n n).reverse).map Nat.digitChar ≠ [] := by
      rw [natToRevDigitsAux_eq_digits n n le_rfl]
      simp [hne]
    intro hcontra
    apply this
    have := congrArg String.data hcontra
    simpa using this

/-! ### Period Store: the two `localStorage` entries and their readers -/

/-- The slice of `localStorage` used by the period store: the durable entries
`analysisMonth` and `analysisYear` (a `localStorage` value is a string or
absent). -/
structure PeriodStorage where
  analysisMonth : Option String
  analysisYear : Option String
deriving Repr, DecidableEq

/-- The browser clock values the components read: `d.getMonth()` (0-based)
and `d.getFullYear()`. -/
structure Now where
  month : Nat
  year : Nat
deriving Repr, DecidableEq

/-- The `MOIS` array shared by `UploadSection.jsx`, `AlertsPanel.jsx`,
`AnalyticsSummary.jsx` and `Dashboard.jsx`. -/
def MOIS : List String :=
  ["janvier", "fevrier", "mars", "avril", "mai", "juin",
   "juillet", "aout", "septembre", "octobre", "novembre", "decembre"]

/-- `monthNameFR` from `AlertsPanel.jsx` / `Dashboard.jsx`:
`MOIS[d.getMonth()]`. -/
def monthNameFR (now : Now) : String := MOIS.getD now.month ""

/-- The store write performed by `performUploadAndAnalyze`
(`UploadSection.jsx` lines 205-206):
`localStorage.setItem("analysisMonth", mois)` and
`localStorage.setItem("analysisYear", String(annee))`. -/
def writePeriod (mois : String) (annee : Nat) : PeriodStorage :=
  { analysisMonth := some mois, analysisYear := some (jsOfNat annee) }

/-- `readStoredPeriod` from `AlertsPanel.jsx` (lines 14-21):
`{ mois: m || monthNameFR(), annee: a ? Number(a) : new Date().getFullYear() }`. -/
def readStoredPeriod (st : PeriodStorage) (now : Now) : String × JsNum :=
  ( if jsTruthyOptStr st.analysisMonth then st.analysisMonth.getD ""
    else monthNameFR now,
    if jsTruthyOptStr st.analysisYear then jsToNat (st.analysisYear.getD "")
    else some now.year )

/-- The initial `mois` state of `AnalyticsSummary` (line 30):
`localStorage.getItem("analysisMonth") || MOIS[now.getMonth()]`. -/
def summaryInitMois (st : PeriodStorage) (now : Now) : String :=
  if jsTruthyOptStr st.analysisMonth then st.analysisMonth.getD ""
  else MOIS.getD now.month ""

/-- The initial `annee` state of `AnalyticsSummary` (line 31):
`Number(localStorage.getItem("analysisYear") || now.getFullYear())` —
the fallback year is already a number, so `Number` is the identity on it. -/
def summaryInitAnnee (st : PeriodStorage) (now : Now) : JsNum :=
  if jsTruthyOptStr st.analysisYear then jsToNat (st.analysisYear.getD "")
  else some now.year

/-! ### Event bus: the `analysis-period-changed` channel on `window`

`window.addEventListener` / `removeEventListener` / `dispatchEvent` on a
single event type, as used by the three observer components.  Listeners are
identified by an id; per DOM semantics registering the same listener twice
is a no-op, removal removes it, and a dispatch invokes every listener
registered at that moment once, in registration order. -/

/-- The listener list of the `window` event target for one event type. -/
abbrev Bus := List Nat

/-- `window.addEventListener("analysis-period-changed", h)`: appends `h`
unless already registered (DOM duplicate-listener rule). -/
def addEventListener (b : Bus) (h : Nat) : Bus :=
  if h ∈ b then b else b ++ [h]

/-- `window.removeEventListener("analysis-period-changed", h)`. -/
def removeEventListener (b : Bus) (h : Nat) : Bus := b.erase h

/-- `window.dispatchEvent(new CustomEvent("analysis-period-changed", …))`:
the sequence of listener invocations performed by one dispatch. -/
def dispatchEvent (b : Bus) : List Nat := b

/-- Listener lists reachable from the empty bus are duplicate-free. -/
theorem addEventListener_nodup {b : Bus} (hb : b.Nodup) (h : Nat) :
    (addEventListener b h).Nodup := by
  unfold addEventListener
  split
  · exact hb
  · simpa [List.nodup_append] using ⟨hb, by assumption⟩

/-- Removal preserves duplicate-freedom. -/
theorem removeEventListener_nodup {b : Bus} (hb : b.Nodup) (h : Nat) :
    (removeEventListener b h).Nodup := hb.erase h

/-! ### Observer panel handlers for `analysis-period-changed` -/

/-- The `detail` payload of an `analysis-period-changed` event; either field
may be absent. -/
structure EvDetail where
  mois : Option String
  annee : Option Nat
deriving Repr, DecidableEq

/-- The handler registered by `AlertsPanel` (lines 59-62):
`const { mois, annee } = e.detail || {}; if (mois && annee)
setPeriode({ mois, annee: Number(annee) })`. -/
def alertsOnPeriodChanged (cur : String × JsNum) (e : Option EvDetail) :
    String × JsNum :=
  let d := e.getD ⟨none, none⟩
  if jsTruthyOptStr d.mois && jsTruthyOptNat d.annee then
    (d.mois.getD "", some (d.annee.getD 0))
  else cur

/-- The handler registered by `Dashboard` (lines 65-69):
`const m = e?.detail?.mois; const y = e?.detail?.annee;
if (m && y) setPeriod({ mois: m, annee: Number(y) })`. -/
def dashboardOnPeriod (cur : String × JsNum) (e : Option EvDetail) :
    String × JsNum :=
  let m := e.bind EvDetail.mois
  let y := e.bind EvDetail.annee
  if jsTruthyOptStr m && jsTruthyOptNat y then
    (m.getD "", some (y.getD 0))
  else cur

/-- The handler registered by `AnalyticsSummary` (lines 56-64):
`if (m && y) { setMois(m); setAnnee(Number(y)); fetchSummary(m, Number(y)); }`
(the state update part). -/
def summaryOnChange (cur : String × JsNum) (e : Option EvDetail) :
    String × JsNum :=
  let m := e.bind EvDetail.mois
  let y := e.bind EvDetail.annee
  if jsTruthyOptStr m && jsTruthyOptNat y then
    (m.getD "", some (y.getD 0))
  else cur

/-- A panel period with both fields set: a non-empty month name and an
actual (non-`NaN`) year. -/
def bothFieldsSet (p : String × JsNum) : Prop := p.1 ≠ "" ∧ p.2.isSome

instance (p : String × JsNum) : Decidable (bothFieldsSet p) := by
  unfold bothFieldsSet; infer_instance

/-! ### Remote operation client -/

/-- The `Authorization` header value built by the ternary
`token ? \x7bBearer token\x7d : ""` used in `UploadSection.jsx` (lines 179,
188), `AnomaliesPanel.jsx` and `aiService.js`: the bearer credential when a
token is present, the empty string otherwise. -/
def authHeaderValue (token : Option String) : String :=
  if jsTruthyOptStr token then "Bearer " ++ token.getD "" else ""

/-- The headers object of `AlertsPanel.jsx` (lines 33-37):
`token = localStorage.getItem("token") || ""`, then
`token ? { Authorization: Bearer } : {}` — here the `Authorization`
entry itself, `none` when the header is omitted. -/
def alertsAuthHeader (stored : Option String) : Option String :=
  let token := if jsTruthyOptStr stored then stored.getD "" else ""
  if token ≠ "" then some ("Bearer " ++ token) else none

/-- The `GET /ai/summary` request built by `getMonthSummary` in
`aiService.js`. -/
structure SummaryRequest where
  auth : String
  mois : String
  annee : Nat
deriving Repr, DecidableEq

/-- `getMonthSummary` from `aiService.js`: issues `GET /ai/summary` with
`params: {mois, annee}` and `headers: { Authorization: token ? Bearer : "" }`;
it performs no client-side credential check. -/
def getMonthSummary (token : Option String) (mois : String) (annee : Nat) :
    SummaryRequest :=
  { auth := authHeaderValue token, mois := mois, annee := annee }

/-- The `POST /upload-excel` request assembled by `uploadExcels` in
`uploadService.js` (form fields plus headers). -/
structure UploadRequest where
  auth : String
  type_fichier : String
  mois : String
  annee : String
  files : List String
deriving Repr, DecidableEq

/-- `uploadExcels` from `uploadService.js`: validates its arguments, then
`if (!token) throw new Error("Token invalide ou expiré")`, else posts the
form with `Authorization: Bearer token`.  `.error` models a thrown
`Error`'s message. -/
def uploadExcels (type_fichier mois : String) (annee : Nat)
    (files : List String) (token : Option String) :
    Except String UploadRequest :=
  if ¬ jsTruthyStr type_fichier ∨ ¬ jsTruthyStr mois ∨ annee = 0 then
    .error "Type, mois et année sont obligatoires."
  else if files.isEmpty then
    .error "Veuillez sélectionner au moins un fichier .xlsx."
  else if ¬ jsTruthyOptStr token then
    .error "Token invalide ou expiré"
  else
    .ok { auth := "Bearer " ++ token.getD "", type_fichier := type_fichier,
          mois := mois, annee := jsOfNat annee, files := files }

/-! ### Upload/analyze orchestrator (`UploadSection.jsx`) -/

/-- The user's pending selection: the `files`, `typeFichier`, `mois`,
`annee` state of `UploadSection`.  A missing `typeFichier`/`mois` is the
empty string, a missing `annee` is `0` (both falsy). -/
structure UploadSelection where
  typeFichier : String
  mois : String
  annee : Nat
  files : List String
deriving Repr, DecidableEq

/-- JS `name.toLowerCase()` on the ASCII file names in play. -/
def toLowerStr (s : String) : String := ⟨s.data.map Char.toLower⟩

/-- `f.name.toLowerCase().endsWith(".xlsx")`. -/
def endsWithXlsx (name : String) : Bool :=
  List.isSuffixOf ".xlsx".data (toLowerStr name).data

/-- `handleUploadClick` (lines 145-162): clears the messages, validates the
selection, and either returns to idle with a validation error or opens the
confirmation dialog (`.ok`).  No network request is involved. -/
def handleUploadClick (s : UploadSelection) : Except String Unit :=
  if ¬ jsTruthyStr s.typeFichier ∨ ¬ jsTruthyStr s.mois ∨ s.annee = 0 then
    .error "Veuillez sélectionner le type de fichier, le mois et l’année."
  else if s.files.isEmpty then
    .error "Veuillez sélectionner au moins un fichier .xlsx."
  else
    match s.files.find? (fun f => ¬ endsWithXlsx f) with
    | some f =>
      .error ("Seuls les fichiers .xlsx sont autorisés (fichier invalide : "
        ++ f ++ ")")
    | none => .ok ()

/-- `rows_loaded` of the ETL response (`data?.etl_summary?.rows_loaded`). -/
structure RowsLoaded where
  ventes : Option Nat
  achats : Option Nat
  stock : Option Nat
  depenses : Option Nat
  marge : Option Nat
  banque : Option Nat
  caisse : Option Nat
  clients : Option Nat
deriving Repr, DecidableEq

/-- The `etl_summary` object of the ETL response. -/
structure EtlSummary where
  rows_loaded : Option RowsLoaded
deriving Repr, DecidableEq

/-- The `analysis` object of the ETL response
(`inserted_anomalies ?? count ?? 0`, `critical ?? 0`). -/
structure AnalysisInfo where
  inserted_anomalies : Option Nat
  count : Option Nat
  critical : Option Nat
deriving Repr, DecidableEq

/-- The JSON body returned by `POST /etl/load-month`. -/
structure EtlResponse where
  etl_summary : Option EtlSummary
  analysis : Option AnalysisInfo
deriving Repr, DecidableEq

/-- The success banner built at lines 196-202 of `UploadSection.jsx`. -/
def buildSuccessMessage (d : EtlResponse) : String :=
  let rows := (d.etl_summary.bind EtlSummary.rows_loaded).getD
    ⟨none, none, none, none, none, none, none, none⟩
  let ana := d.analysis.getD ⟨none, none, none⟩
  let anomalies := ana.inserted_anomalies.getD (ana.count.getD 0)
  let crit := ana.critical.getD 0
  "✅ Chargement terminé. " ++
  "Ventes:" ++ jsOfNat (rows.ventes.getD 0) ++
  " Achats:" ++ jsOfNat (rows.achats.getD 0) ++
  " Stock:" ++ jsOfNat (rows.stock.getD 0) ++ " " ++
  "Dépenses:" ++ jsOfNat (rows.depenses.getD 0) ++
  " Marge:" ++ jsOfNat (rows.marge.getD 0) ++
  " Banque:" ++ jsOfNat (rows.banque.getD 0) ++ " " ++
  "Caisse:" ++ jsOfNat (rows.caisse.getD 0) ++
  " Clients:" ++ jsOfNat (rows.clients.getD 0) ++ ". " ++
  "Analyse IA: " ++ jsOfNat anomalies ++ " anomalie(s), dont " ++
  jsOfNat crit ++ " critique(s)."

/-- An axios failure as the catch block reads it:
`err?.response?.data?.detail` when the backend supplied one (`some`),
otherwise `err?.message` / the generic fallback. -/
abbrev RemoteFailure := Option String

/-- The error surfaced at lines 211-215:
`err?.response?.data?.detail || err?.message ||
"Erreur durant l’opération (upload/ETL/IA)."`. -/
def catchMessage (d : RemoteFailure) : String :=
  match d with
  | some s => if s ≠ "" then s else "Erreur durant l’opération (upload/ETL/IA)."
  | none => "Erreur durant l’opération (upload/ETL/IA)."

/-- The catch block never surfaces an empty error message. -/
theorem catchMessage_ne_empty (d : RemoteFailure) : catchMessage d ≠ "" := by
  cases d with
  | none => decide
  | some s =>
    by_cases h : s = ""
    · subst h; decide
    · simp [catchMessage, h]

/-- The backend's behaviour for one cycle: the outcome of
`POST /upload-excel` and of `POST /etl/load-month`. -/
structure Remote where
  uploadResult : Except RemoteFailure Unit
  analysisResult : Except RemoteFailure EtlResponse

/-- One observable step of a cycle, in program order. -/
inductive Ev where
  | uploadReq (path auth typeFichier mois anneeStr : String)
      (files : List String)
  | analyzeReq (path auth mois : String) (annee : Nat) (typeFichier : String)
  | storeWrite (mois : String) (annee : Nat)
  | publish (mois : String) (annee : Nat)
deriving Repr, DecidableEq

/-- `e` is a `POST /upload-excel` request. -/
def Ev.isUpload : Ev → Bool
  | .uploadReq _ _ _ _ _ _ => true
  | _ => false

/-- `e` is a `POST /etl/load-month` request. -/
def Ev.isAnalyze : Ev → Bool
  | .analyzeReq _ _ _ _ _ => true
  | _ => false

/-- `e` is an `analysis-period-changed` publish. -/
def Ev.isPublish : Ev → Bool
  | .publish _ _ => true
  | _ => false

/-- `e` is a Period Store write. -/
def Ev.isStoreWrite : Ev → Bool
  | .storeWrite _ _ => true
  | _ => false

/-- The component state and environment after a cycle finishes. -/
structure OrchResult where
  store : PeriodStorage
  trace : List Ev
  files : List String
  successMessage : String
  error : String
  confirmOpen : Bool
  loading : Bool
deriving Repr, DecidableEq

/-- `performUploadAndAnalyze` (lines 165-220): posts the upload form, then
the ETL trigger; on full success sets the banner, writes the period store,
dispatches `analysis-period-changed` and clears the files; on any failure
sets the error and leaves store and files untouched; the `finally` block
always clears `loading` and closes the dialog. -/
def performUploadAndAnalyze (token : Option String) (s : UploadSelection)
    (remote : Remote) (st : PeriodStorage) : OrchResult :=
  let auth := authHeaderValue token
  let up := Ev.uploadReq "/upload-excel" auth s.typeFichier s.mois
    (jsOfNat s.annee) s.files
  match remote.uploadResult with
  | .error d =>
    { store := st, trace := [up], files := s.files, successMessage := "",
      error := catchMessage d, confirmOpen := false, loading := false }
  | .ok _ =>
    let an := Ev.analyzeReq "/etl/load-month" auth s.mois s.annee s.typeFichier
    match remote.analysisResult with
    | .error d =>
      { store := st, trace := [up, an], files := s.files,
        successMessage := "", error := catchMessage d,
        confirmOpen := false, loading := false }
    | .ok data =>
      { store := writePeriod s.mois s.annee,
        trace := [up, an, .storeWrite s.mois s.annee, .publish s.mois s.annee],
        files := [], successMessage := buildSuccessMessage data,
        error := "", confirmOpen := false, loading := false }

/-- The user's choice in the confirmation dialog. -/
inductive ConfirmChoice where
  | confirm
  | cancel
deriving Repr, DecidableEq

/-- One full cycle: `handleUploadClick`, then — if the dialog opened — the
user either cancels (`setConfirmOpen(false)`, nothing else) or confirms
(`performUploadAndAnalyze`). -/
def runCycle (s : UploadSelection) (choice : ConfirmChoice)
    (token : Option String) (remote : Remote) (st : PeriodStorage) :
    OrchResult :=
  match handleUploadClick s with
  | .error msg =>
    { store := st, trace := [], files := s.files, successMessage := "",
      error := msg, confirmOpen := false, loading := false }
  | .ok _ =>
    match choice with
    | .cancel =>
      { store := st, trace := [], files := s.files, successMessage := "",
        error := "", confirmOpen := false, loading := false }
    | .confirm => performUploadAndAnalyze token s remote st

/-- The acceptance condition of `handleUploadClick`, spelled out. -/
def validSelection (s : UploadSelection) : Bool :=
  jsTruthyStr s.typeFichier && jsTruthyStr s.mois && (s.annee ≠ 0 : Bool)
    && ¬ s.files.isEmpty && s.files.all endsWithXlsx

/-- `handleUploadClick` accepts exactly the valid selections. -/
theorem handleUploadClick_ok_iff (s : UploadSelection) :
    handleUploadClick s = .ok () ↔ validSelection s = true := by
  unfold handleUploadClick validSelection
  constructor
  · intro h
    split at h
    · exact absurd h (by simp)
    · split at h
      · exact absurd h (by simp)
      · rename_i h1 h2
        split at h
        · exact absurd h (by simp)
        · rename_i hfind
          have hall : ∀ f ∈ s.files, endsWithXlsx f = true := by
            intro f hf
            have := List.find?_eq_none.mp hfind f hf
            simpa using this
          simp only [not_or, not_not] at h1
          simp only [Bool.and_eq_true, List.all_eq_true, decide_eq_true_eq]
          refine ⟨⟨⟨⟨?_, ?_⟩, ?_⟩, ?_⟩, hall⟩
          · exact h1.1
          · exact h1.2.1
          · simpa using h1.2.2
          · simpa using h2
  · intro h
    simp only [Bool.and_eq_true, List.all_eq_true, decide_eq_true_eq] at h
    obtain ⟨⟨⟨⟨ht, hm⟩, hy⟩, hne⟩, hall⟩ := h
    rw [if_neg, if_neg]
    · have : s.files.find? (fun f => ¬ endsWithXlsx f) = none := by
        rw [List.find?_eq_none]
        intro f hf
        simp [hall f hf]
      rw [this]
    · simpa using hne
    · simp only [not_or, not_not]
      exact ⟨ht, hm, by simpa using hy⟩

/-! ### Helper lemmas about the orchestrator -/

/-- Number of `POST /upload-excel` requests in a trace. -/
def countUploads (t : List Ev) : Nat := t.countP Ev.isUpload

/-- Number of `POST /etl/load-month` requests in a trace. -/
def countAnalyzes (t : List Ev) : Nat := t.countP Ev.isAnalyze

/-- Number of Period Store writes in a trace. -/
def countStoreWrites (t : List Ev) : Nat := t.countP Ev.isStoreWrite

/-- Number of `analysis-period-changed` publishes in a trace. -/
def countPublishes (t : List Ev) : Nat := t.countP Ev.isPublish

/-- A validation failure message of `handleUploadClick` is never empty. -/
theorem handleUploadClick_error_ne_empty (s : UploadSelection) (msg : String)
    (h : handleUploadClick s = .error msg) : msg ≠ "" := by
  unfold handleUploadClick at h
  split at h
  · cases h; decide
  · split at h
    · cases h; decide
    · split at h
      · rename_i f _
        cases h
        intro hc
        have hlen := congrArg String.length hc
        rw [String.length_append, String.length_append] at hlen
        have h1 : (")" : String).length = 1 := rfl
        have h2 : ("" : String).length = 0 := rfl
        rw [h1, h2] at hlen
        omega
      · cases h

/-- An accepted selection has a non-empty month and a non-zero year. -/
theorem month_year_of_click_ok (s : UploadSelection)
    (h : handleUploadClick s = .ok ()) : s.mois ≠ "" ∧ s.annee ≠ 0 := by
  have hv := (handleUploadClick_ok_iff s).mp h
  unfold validSelection at hv
  simp only [Bool.and_eq_true, decide_eq_true_eq, jsTruthyStr] at hv
  exact ⟨hv.1.1.1.2, hv.1.1.2⟩

/-! ### Claim theorems -/

/-- Claim C1: for every valid selection, submitting and confirming the
dialog causes exactly one `POST /upload-excel` followed by exactly one
`POST /etl/load-month`, in that order, and the Period Store write and the
`analysis-period-changed` publish occur strictly after the analysis request
succeeds. -/
theorem upload_then_analyze_then_publish (s : UploadSelection)
    (token : Option String) (remote : Remote) (st : PeriodStorage)
    (d : EtlResponse)
    (hv : handleUploadClick s = .ok ())
    (hu : remote.uploadResult = .ok ())
    (ha : remote.analysisResult = .ok d) :
    (runCycle s .confirm token remote st).trace =
      [Ev.uploadReq "/upload-excel" (authHeaderValue token) s.typeFichier
        s.mois (jsOfNat s.annee) s.files,
       Ev.analyzeReq "/etl/load-month" (authHeaderValue token) s.mois
        s.annee s.typeFichier,
       Ev.storeWrite s.mois s.annee,
       Ev.publish s.mois s.annee] ∧
    countUploads (runCycle s .confirm token remote st).trace = 1 ∧
    countAnalyzes (runCycle s .confirm token remote st).trace = 1 ∧
    countStoreWrites (runCycle s .confirm token remote st).trace = 1 ∧
    countPublishes (runCycle s .confirm token remote st).trace = 1 := by
  have hrun : runCycle s .confirm token remote st =
      performUploadAndAnalyze token s remote st := by
    unfold runCycle
    rw [hv]
  rw [hrun]
  unfold performUploadAndAnalyze
  rw [hu, ha]
  refine ⟨rfl, ?_, ?_, ?_, ?_⟩ <;>
    simp [countUploads, countAnalyzes, countStoreWrites, countPublishes,
      Ev.isUpload, Ev.isAnalyze, Ev.isStoreWrite, Ev.isPublish, List.countP,
      List.countP.go]

/-- Closed instance of the C1 theorem at a concrete successful cycle. -/
theorem upload_then_analyze_then_publish_witness :
    (runCycle ⟨"ventes_journalieres", "mars", 2024, ["a.xlsx"]⟩ .confirm
        (some "tok") ⟨.ok (), .ok ⟨none, none⟩⟩ ⟨none, none⟩).trace =
      [Ev.uploadReq "/upload-excel" (authHeaderValue (some "tok"))
        "ventes_journalieres" "mars" (jsOfNat 2024) ["a.xlsx"],
       Ev.analyzeReq "/etl/load-month" (authHeaderValue (some "tok")) "mars"
        2024 "ventes_journalieres",
       Ev.storeWrite "mars" 2024,
       Ev.publish "mars" 2024] ∧
    countUploads (runCycle ⟨"ventes_journalieres", "mars", 2024, ["a.xlsx"]⟩
      .confirm (some "tok") ⟨.ok (), .ok ⟨none, none⟩⟩ ⟨none, none⟩).trace = 1 ∧
    countAnalyzes (runCycle ⟨"ventes_journalieres", "mars", 2024, ["a.xlsx"]⟩
      .confirm (some "tok") ⟨.ok (), .ok ⟨none, none⟩⟩ ⟨none, none⟩).trace = 1 ∧
    countStoreWrites (runCycle ⟨"ventes_journalieres", "mars", 2024, ["a.xlsx"]⟩
      .confirm (some "tok") ⟨.ok (), .ok ⟨none, none⟩⟩ ⟨none, none⟩).trace = 1 ∧
    countPublishes (runCycle ⟨"ventes_journalieres", "mars", 2024, ["a.xlsx"]⟩
      .confirm (some "tok") ⟨.ok (), .ok ⟨none, none⟩⟩ ⟨none, none⟩).trace = 1 :=
  upload_then_analyze_then_publish _ _ _ _ ⟨none, none⟩ (by rfl) (by rfl) (by rfl)

/-- Claim C2: if the upload request fails, `POST /etl/load-month` is never
issued; and if either request fails, the Period Store entries are unchanged
and no `analysis-period-changed` publish is emitted. -/
theorem failure_blocks_analysis_and_publish (s : UploadSelection)
    (token : Option String) (remote : Remote) (st : PeriodStorage)
    (hv : handleUploadClick s = .ok ()) :
    (∀ e, remote.uploadResult = .error e →
      countAnalyzes (runCycle s .confirm token remote st).trace = 0 ∧
      countPublishes (runCycle s .confirm token remote st).trace = 0 ∧
      (runCycle s .confirm token remote st).store = st) ∧
    (∀ e, remote.uploadResult = .ok () → remote.analysisResult = .error e →
      countPublishes (runCycle s .confirm token remote st).trace = 0 ∧
      (runCycle s .confirm token remote st).store = st) := by
  have hrun : runCycle s .confirm token remote st =
      performUploadAndAnalyze token s remote st := by
    unfold runCycle
    rw [hv]
  rw [hrun]
  constructor
  · intro e he
    unfold performUploadAndAnalyze
    rw [he]
    refine ⟨?_, ?_, rfl⟩ <;>
      simp [countAnalyzes, countPublishes, Ev.isAnalyze, Ev.isPublish,
        List.countP, List.countP.go]
  · intro e hu ha
    unfold performUploadAndAnalyze
    rw [hu, ha]
    refine ⟨?_, rfl⟩
    simp [countPublishes, Ev.isPublish, List.countP, List.countP.go]

/-- Closed instance of the C2 theorem: a failing upload issues no analysis
request, no publish, and leaves the store untouched. -/
theorem failure_blocks_analysis_and_publish_witness :
    countAnalyzes (runCycle ⟨"ventes_journalieres", "mars", 2024, ["a.xlsx"]⟩
      .confirm (some "tok") ⟨.error (some "500"), .ok ⟨none, none⟩⟩
      ⟨none, none⟩).trace = 0 ∧
    countPublishes (runCycle ⟨"ventes_journalieres", "mars", 2024, ["a.xlsx"]⟩
      .confirm (some "tok") ⟨.error (some "500"), .ok ⟨none, none⟩⟩
      ⟨none, none⟩).trace = 0 ∧
    (runCycle ⟨"ventes_journalieres", "mars", 2024, ["a.xlsx"]⟩
      .confirm (some "tok") ⟨.error (some "500"), .ok ⟨none, none⟩⟩
      ⟨none, none⟩).store = ⟨none, none⟩ :=
  (failure_blocks_analysis_and_publish _ _ _ _ (by rfl)).1 (some "500") (by rfl)

/-- Claim C3: a fully successful cycle publishes `analysis-period-changed`
exactly once, and reading the Period Store afterwards returns exactly the
submitted period. -/
theorem success_publishes_once_and_store_returns_period (s : UploadSelection)
    (token : Option String) (remote : Remote) (st : PeriodStorage)
    (d : EtlResponse) (now : Now)
    (hv : handleUploadClick s = .ok ())
    (hu : remote.uploadResult = .ok ())
    (ha : remote.analysisResult = .ok d) :
    countPublishes (runCycle s .confirm token remote st).trace = 1 ∧
    readStoredPeriod (runCycle s .confirm token remote st).store now =
      (s.mois, some s.annee) := by
  have hm : s.mois ≠ "" := (month_year_of_click_ok s hv).1
  have hrun : runCycle s .confirm token remote st =
      performUploadAndAnalyze token s remote st := by
    unfold runCycle
    rw [hv]
  rw [hrun]
  unfold performUploadAndAnalyze
  rw [hu, ha]
  constructor
  · simp [countPublishes, Ev.isPublish, List.countP, List.countP.go]
  · unfold readStoredPeriod writePeriod
    simp only [jsTruthyOptStr]
    rw [if_pos (by simpa using hm), if_pos (by simpa using jsOfNat_ne_empty s.annee)]
    simp [jsToNat_jsOfNat]

/-- Closed instance of the C3 theorem at a concrete successful cycle. -/
theorem success_publishes_once_and_store_returns_period_witness :
    countPublishes (runCycle ⟨"ventes_journalieres", "mars", 2024, ["a.xlsx"]⟩
      .confirm (some "tok") ⟨.ok (), .ok ⟨none, none⟩⟩ ⟨none, none⟩).trace = 1 ∧
    readStoredPeriod (runCycle ⟨"ventes_journalieres", "mars", 2024, ["a.xlsx"]⟩
      .confirm (some "tok") ⟨.ok (), .ok ⟨none, none⟩⟩ ⟨none, none⟩).store
      ⟨5, 2025⟩ = ("mars", some 2024) :=
  success_publishes_once_and_store_returns_period _ _ _ _ ⟨none, none⟩ _
    (by rfl) (by rfl) (by rfl)

/-- Claim C5, counterexample: with a valid selection and a failing upload,
the cycle ends in the failed state (error message set) but the selected
files are NOT discarded — they remain `["a.xlsx"]`, refuting "the
UploadSelection is discarded". -/
theorem failed_cycle_keeps_files_counterexample :
    (runCycle ⟨"ventes_journalieres", "mars", 2024, ["a.xlsx"]⟩ .confirm
      (some "tok") ⟨.error (some "500"), .ok ⟨none, none⟩⟩
      ⟨none, none⟩).error = "500" ∧
    (runCycle ⟨"ventes_journalieres", "mars", 2024, ["a.xlsx"]⟩ .confirm
      (some "tok") ⟨.error (some "500"), .ok ⟨none, none⟩⟩
      ⟨none, none⟩).files = ["a.xlsx"] ∧
    (runCycle ⟨"ventes_journalieres", "mars", 2024, ["a.xlsx"]⟩ .confirm
      (some "tok") ⟨.error (some "500"), .ok ⟨none, none⟩⟩
      ⟨none, none⟩).files ≠ ([] : List String) := by
  refine ⟨by rfl, by rfl, ?_⟩
  intro h
  have hfiles : (runCycle ⟨"ventes_journalieres", "mars", 2024, ["a.xlsx"]⟩
      .confirm (some "tok") ⟨.error (some "500"), .ok ⟨none, none⟩⟩
      ⟨none, none⟩).files = ["a.xlsx"] := by rfl
  rw [hfiles] at h
  exact List.noConfusion h

/-- Claim C5 as amended: on a remote failure at the Uploading or Analyzing
stage the orchestrator enters the failed state (a non-empty error message,
dialog closed, loading cleared) and the selected files are retained
unchanged — they are cleared only on full success. -/
theorem failure_enters_failed_and_keeps_files (s : UploadSelection)
    (token : Option String) (remote : Remote) (st : PeriodStorage)
    (hv : handleUploadClick s = .ok ()) :
    (∀ e, remote.uploadResult = .error e →
      (runCycle s .confirm token remote st).error ≠ "" ∧
      (runCycle s .confirm token remote st).files = s.files ∧
      (runCycle s .confirm token remote st).confirmOpen = false ∧
      (runCycle s .confirm token remote st).loading = false) ∧
    (∀ e, remote.uploadResult = .ok () → remote.analysisResult = .error e →
      (runCycle s .confirm token remote st).error ≠ "" ∧
      (runCycle s .confirm token remote st).files = s.files ∧
      (runCycle s .confirm token remote st).confirmOpen = false ∧
      (runCycle s .confirm token remote st).loading = false) := by
  have hrun : runCycle s .confirm token remote st =
      performUploadAndAnalyze token s remote st := by
    unfold runCycle
    rw [hv]
  rw [hrun]
  constructor
  · intro e he
    unfold performUploadAndAnalyze
    rw [he]
    exact ⟨catchMessage_ne_empty e, rfl, rfl, rfl⟩
  · intro e hu ha
    unfold performUploadAndAnalyze
    rw [hu, ha]
    exact ⟨catchMessage_ne_empty e, rfl, rfl, rfl⟩

/-- Closed instance of the amended C5 theorem at a failing analysis call. -/
theorem failure_enters_failed_and_keeps_files_witness :
    (runCycle ⟨"ventes_journalieres", "mars", 2024, ["a.xlsx"]⟩ .confirm
      (some "tok") ⟨.ok (), .error none⟩ ⟨none, none⟩).error ≠ "" ∧
    (runCycle ⟨"ventes_journalieres", "mars", 2024, ["a.xlsx"]⟩ .confirm
      (some "tok") ⟨.ok (), .error none⟩ ⟨none, none⟩).files = ["a.xlsx"] ∧
    (runCycle ⟨"ventes_journalieres", "mars", 2024, ["a.xlsx"]⟩ .confirm
      (some "tok") ⟨.ok (), .error none⟩ ⟨none, none⟩).confirmOpen = false ∧
    (runCycle ⟨"ventes_journalieres", "mars", 2024, ["a.xlsx"]⟩ .confirm
      (some "tok") ⟨.ok (), .error none⟩ ⟨none, none⟩).loading = false :=
  (failure_enters_failed_and_keeps_files _ _ _ _ (by rfl)).2 none
    (by rfl) (by rfl)

/-- Claim C6: a selection violating an invariant (missing type, month or
year; empty file list; a non-`.xlsx` file) is rejected with a non-empty
validation message before any network request, the store is untouched and
the orchestrator stays idle (no dialog). -/
theorem invalid_selection_rejected_before_network (s : UploadSelection)
    (choice : ConfirmChoice) (token : Option String) (remote : Remote)
    (st : PeriodStorage) (h : validSelection s = false) :
    (runCycle s choice token remote st).trace = [] ∧
    (runCycle s choice token remote st).error ≠ "" ∧
    (runCycle s choice token remote st).store = st ∧
    (runCycle s choice token remote st).confirmOpen = false := by
  cases heq : handleUploadClick s with
  | ok u =>
    cases u
    rw [handleUploadClick_ok_iff s, h] at heq
    cases heq
  | error msg =>
    have hmsg := handleUploadClick_error_ne_empty s msg heq
    unfold runCycle
    rw [heq]
    exact ⟨rfl, hmsg, rfl, rfl⟩

/-- Closed instance of the C6 theorem on the empty-files selection of the
spec scenario. -/
theorem invalid_selection_rejected_before_network_witness :
    (runCycle ⟨"ventes_journalieres", "mars", 2024, []⟩ .confirm (some "tok")
      ⟨.ok (), .ok ⟨none, none⟩⟩ ⟨none, none⟩).trace = [] ∧
    (runCycle ⟨"ventes_journalieres", "mars", 2024, []⟩ .confirm (some "tok")
      ⟨.ok (), .ok ⟨none, none⟩⟩ ⟨none, none⟩).error ≠ "" ∧
    (runCycle ⟨"ventes_journalieres", "mars", 2024, []⟩ .confirm (some "tok")
      ⟨.ok (), .ok ⟨none, none⟩⟩ ⟨none, none⟩).store = ⟨none, none⟩ ∧
    (runCycle ⟨"ventes_journalieres", "mars", 2024, []⟩ .confirm (some "tok")
      ⟨.ok (), .ok ⟨none, none⟩⟩ ⟨none, none⟩).confirmOpen = false :=
  invalid_selection_rejected_before_network _ _ _ _ _ (by decide)

/-- Claim C7: declining the confirmation dialog issues zero network calls
and returns the state machine to idle: no trace events, store, files and
messages untouched, dialog closed. -/
theorem cancel_no_network_calls (s : UploadSelection) (token : Option String)
    (remote : Remote) (st : PeriodStorage)
    (hv : handleUploadClick s = .ok ()) :
    runCycle s .cancel token remote st =
      { store := st, trace := [], files := s.files, successMessage := "",
        error := "", confirmOpen := false, loading := false } := by
  unfold runCycle
  rw [hv]

/-- Closed instance of the C7 theorem. -/
theorem cancel_no_network_calls_witness :
    runCycle ⟨"ventes_journalieres", "mars", 2024, ["a.xlsx"]⟩ .cancel
      (some "tok") ⟨.ok (), .ok ⟨none, none⟩⟩ ⟨none, none⟩ =
      { store := ⟨none, none⟩, trace := [], files := ["a.xlsx"],
        successMessage := "", error := "", confirmOpen := false,
        loading := false } :=
  cancel_no_network_calls _ _ _ _ (by rfl)

/-- Claim C8: reading the Period Store returns the last persisted period
(for both the `AlertsPanel` reader and the `AnalyticsSummary` initializer),
and when nothing has been persisted it returns the current calendar month
name and the current calendar year. -/
theorem store_get_returns_last_persisted_or_current
    (m : String) (y : Nat) (now : Now) (hm : m ≠ "") :
    readStoredPeriod ⟨none, none⟩ now = (monthNameFR now, some now.year) ∧
    readStoredPeriod (writePeriod m y) now = (m, some y) ∧
    summaryInitMois ⟨none, none⟩ now = MOIS.getD now.month "" ∧
    summaryInitAnnee ⟨none, none⟩ now = some now.year ∧
    summaryInitMois (writePeriod m y) now = m ∧
    summaryInitAnnee (writePeriod m y) now = some y := by
  have hy : jsOfNat y ≠ "" := jsOfNat_ne_empty y
  refine ⟨?_, ?_, ?_, ?_, ?_, ?_⟩
  · simp [readStoredPeriod, jsTruthyOptStr]
  · unfold readStoredPeriod writePeriod
    simp only [jsTruthyOptStr]
    rw [if_pos (by simpa using hm), if_pos (by simpa using hy)]
    simp [jsToNat_jsOfNat]
  · simp [summaryInitMois, jsTruthyOptStr]
  · simp [summaryInitAnnee, jsTruthyOptStr]
  · unfold summaryInitMois writePeriod
    simp only [jsTruthyOptStr]
    rw [if_pos (by simpa using hm)]
    rfl
  · unfold summaryInitAnnee writePeriod
    simp only [jsTruthyOptStr]
    rw [if_pos (by simpa using hy)]
    simp [jsToNat_jsOfNat]

/-- Closed instance of the C8 theorem. -/
theorem store_get_returns_last_persisted_or_current_witness :
    readStoredPeriod ⟨none, none⟩ ⟨2, 2025⟩ =
      (monthNameFR ⟨2, 2025⟩, some 2025) ∧
    readStoredPeriod (writePeriod "mars" 2024) ⟨2, 2025⟩ = ("mars", some 2024) ∧
    summaryInitMois ⟨none, none⟩ ⟨2, 2025⟩ = MOIS.getD 2 "" ∧
    summaryInitAnnee ⟨none, none⟩ ⟨2, 2025⟩ = some 2025 ∧
    summaryInitMois (writePeriod "mars" 2024) ⟨2, 2025⟩ = "mars" ∧
    summaryInitAnnee (writePeriod "mars" 2024) ⟨2, 2025⟩ = some 2024 :=
  store_get_returns_last_persisted_or_current "mars" 2024
    ⟨2, 2025⟩ (by decide)

/-- Claim C9: a handler registered on the `analysis-period-changed` channel
at the moment of a dispatch is invoked exactly once by that dispatch, and a
handler that was removed before the dispatch is not invoked at all. -/
theorem subscribed_receives_once_unsubscribed_none (b : Bus) (h : Nat)
    (hb : b.Nodup) :
    (h ∈ b → (dispatchEvent b).count h = 1) ∧
    (dispatchEvent (removeEventListener b h)).count h = 0 := by
  constructor
  · intro hm
    exact List.count_eq_one_of_mem hb hm
  · have hle : b.count h ≤ 1 := List.nodup_iff_count_le_one.mp hb h
    have : (b.erase h).count h = b.count h - 1 := List.count_erase_self h b
    unfold dispatchEvent removeEventListener
    omega

/-- Closed instance of the C9 theorem on a two-listener bus. -/
theorem subscribed_receives_once_unsubscribed_none_witness :
    (7 ∈ ([7, 9] : Bus) → (dispatchEvent [7, 9]).count 7 = 1) ∧
    (dispatchEvent (removeEventListener [7, 9] 7)).count 7 = 0 :=
  subscribed_receives_once_unsubscribed_none [7, 9] 7 (by decide)

/-- The `AlertsPanel` handler preserves a fully-set period. -/
theorem alertsOnPeriodChanged_preserves (c : String × JsNum)
    (e : Option EvDetail) (hc : bothFieldsSet c) :
    bothFieldsSet (alertsOnPeriodChanged c e) := by
  unfold alertsOnPeriodChanged
  set d := e.getD ⟨none, none⟩ with hd
  by_cases hcond : (jsTruthyOptStr d.mois && jsTruthyOptNat d.annee) = true
  · rw [if_pos hcond]
    rw [Bool.and_eq_true] at hcond
    obtain ⟨h1, _⟩ := hcond
    cases hmo : d.mois with
    | none => rw [hmo] at h1; exact absurd h1 (by simp [jsTruthyOptStr])
    | some mo =>
      rw [hmo] at h1
      simp only [jsTruthyOptStr, ne_eq, decide_eq_true_eq] at h1
      exact ⟨by simpa [hmo] using h1, by simp [bothFieldsSet]⟩
  · rw [if_neg hcond]
    exact hc

/-- The `Dashboard` handler preserves a fully-set period. -/
theorem dashboardOnPeriod_preserves (c : String × JsNum)
    (e : Option EvDetail) (hc : bothFieldsSet c) :
    bothFieldsSet (dashboardOnPeriod c e) := by
  unfold dashboardOnPeriod
  set m := e.bind EvDetail.mois with hm
  by_cases hcond : (jsTruthyOptStr m && jsTruthyOptNat (e.bind EvDetail.annee))
      = true
  · rw [if_pos hcond]
    rw [Bool.and_eq_true] at hcond
    obtain ⟨h1, _⟩ := hcond
    cases hmo : m with
    | none => rw [hmo] at h1; exact absurd h1 (by simp [jsTruthyOptStr])
    | some mo =>
      rw [hmo] at h1
      simp only [jsTruthyOptStr, ne_eq, decide_eq_true_eq] at h1
      exact ⟨by simpa [hmo] using h1, by simp [bothFieldsSet]⟩
  · rw [if_neg hcond]
    exact hc

/-- The `AnalyticsSummary` handler preserves a fully-set period. -/
theorem summaryOnChange_preserves (c : String × JsNum)
    (e : Option EvDetail) (hc : bothFieldsSet c) :
    bothFieldsSet (summaryOnChange c e) := by
  unfold summaryOnChange
  set m := e.bind EvDetail.mois with hm
  by_cases hcond : (jsTruthyOptStr m && jsTruthyOptNat (e.bind EvDetail.annee))
      = true
  · rw [if_pos hcond]
    rw [Bool.and_eq_true] at hcond
    obtain ⟨h1, _⟩ := hcond
    cases hmo : m with
    | none => rw [hmo] at h1; exact absurd h1 (by simp [jsTruthyOptStr])
    | some mo =>
      rw [hmo] at h1
      simp only [jsTruthyOptStr, ne_eq, decide_eq_true_eq] at h1
      exact ⟨by simpa [hmo] using h1, by simp [bothFieldsSet]⟩
  · rw [if_neg hcond]
    exact hc

/-- Folding a set-period-preserving handler over any event list keeps the
period fully set. -/
theorem foldl_preserves_bothFieldsSet
    (f : String × JsNum → Option EvDetail → String × JsNum)
    (pres : ∀ c e, bothFieldsSet c → bothFieldsSet (f c e))
    (evs : List (Option EvDetail)) :
    ∀ cur, bothFieldsSet cur → bothFieldsSet (evs.foldl f cur) := by
  induction evs with
  | nil => intro cur h; exact h
  | cons e t ih => intro cur h; exact ih _ (pres _ _ h)

/-- Claim C10: each observer handler ignores a notification whose payload
is missing (or falsy in) the month or the year, so after any sequence of
published events a panel period that started fully set stays fully set. -/
theorem handlers_keep_period_fields_set (cur : String × JsNum)
    (evs : List (Option EvDetail)) (d : EvDetail)
    (h : bothFieldsSet cur)
    (hmiss : jsTruthyOptStr d.mois = false ∨ jsTruthyOptNat d.annee = false) :
    alertsOnPeriodChanged cur (some d) = cur ∧
    dashboardOnPeriod cur (some d) = cur ∧
    summaryOnChange cur (some d) = cur ∧
    bothFieldsSet (evs.foldl alertsOnPeriodChanged cur) ∧
    bothFieldsSet (evs.foldl dashboardOnPeriod cur) ∧
    bothFieldsSet (evs.foldl summaryOnChange cur) := by
  have hfalse : (jsTruthyOptStr d.mois && jsTruthyOptNat d.annee) = false := by
    cases hmiss with
    | inl h1 => simp [h1]
    | inr h2 => simp [h2]
  refine ⟨?_, ?_, ?_, ?_, ?_, ?_⟩
  · unfold alertsOnPeriodChanged
    simp [hfalse]
  · unfold dashboardOnPeriod
    simp only [Option.bind_some]
    simp [hfalse]
  · unfold summaryOnChange
    simp only [Option.bind_some]
    simp [hfalse]
  · exact foldl_preserves_bothFieldsSet _ alertsOnPeriodChanged_preserves evs cur h
  · exact foldl_preserves_bothFieldsSet _ dashboardOnPeriod_preserves evs cur h
  · exact foldl_preserves_bothFieldsSet _ summaryOnChange_preserves evs cur h

/-- Closed instance of the C10 theorem: a year-less payload is ignored and
a mixed event sequence leaves the period fully set. -/
theorem handlers_keep_period_fields_set_witness :
    alertsOnPeriodChanged ("mars", some 2024) (some ⟨some "avril", none⟩)
      = ("mars", some 2024) ∧
    dashboardOnPeriod ("mars", some 2024) (some ⟨some "avril", none⟩)
      = ("mars", some 2024) ∧
    summaryOnChange ("mars", some 2024) (some ⟨some "avril", none⟩)
      = ("mars", some 2024) ∧
    bothFieldsSet ([some ⟨some "avril", none⟩, none,
      some ⟨some "mai", some 2025⟩, some ⟨none, some 2026⟩].foldl
      alertsOnPeriodChanged ("mars", some 2024)) ∧
    bothFieldsSet ([some ⟨some "avril", none⟩, none,
      some ⟨some "mai", some 2025⟩, some ⟨none, some 2026⟩].foldl
      dashboardOnPeriod ("mars", some 2024)) ∧
    bothFieldsSet ([some ⟨some "avril", none⟩, none,
      some ⟨some "mai", some 2025⟩, some ⟨none, some 2026⟩].foldl
      summaryOnChange ("mars", some 2024)) :=
  handlers_keep_period_fields_set ("mars", some 2024) _ ⟨some "avril", none⟩
    (by decide) (by decide)

/-- Claim C4, counterexample: the `uploadExcels` service wrapper, called
with a perfectly valid selection but no stored token, throws
`"Token invalide ou expiré"` instead of letting the request reach the
backend — refuting "never throws on a missing credential" for the upload
operation. -/
theorem uploadExcels_throws_on_missing_token :
    uploadExcels "ventes_journalieres" "mars" 2024 ["a.xlsx"] none =
      .error "Token invalide ou expiré" ∧
    ¬ ∃ r : UploadRequest,
      uploadExcels "ventes_journalieres" "mars" 2024 ["a.xlsx"] none =
        .ok r := by
  have he : uploadExcels "ventes_journalieres" "mars" 2024 ["a.xlsx"] none =
      .error "Token invalide ou expiré" := by rfl
  refine ⟨he, ?_⟩
  rintro ⟨r, hr⟩
  rw [he] at hr
  exact Except.noConfusion hr

/-- Claim C4 as amended: the remote operations actually exercised at runtime
— the orchestrator's inline upload and analysis requests, the summary fetch
and the alerts fetch — attach the caller's bearer credential when a token is
present and send an empty (or, for the alerts panel, absent) `Authorization`
value otherwise, without ever throwing client-side: with no token the upload
request is still issued.  The unused `uploadExcels` service wrapper is the
exception: it throws `"Token invalide ou expiré"` when the token is
missing. -/
theorem remote_ops_attach_or_omit_credential (t : String) (ht : t ≠ "")
    (tf m : String) (y : Nat) (fs : List String) (s : UploadSelection)
    (remote : Remote) (st : PeriodStorage)
    (htf : tf ≠ "") (hm : m ≠ "") (hy : y ≠ 0) (hfs : fs ≠ []) :
    authHeaderValue (some t) = "Bearer " ++ t ∧
    authHeaderValue none = "" ∧
    alertsAuthHeader (some t) = some ("Bearer " ++ t) ∧
    alertsAuthHeader none = none ∧
    (getMonthSummary (some t) m y).auth = "Bearer " ++ t ∧
    (getMonthSummary none m y).auth = "" ∧
    (performUploadAndAnalyze none s remote st).trace.head? =
      some (Ev.uploadReq "/upload-excel" "" s.typeFichier s.mois
        (jsOfNat s.annee) s.files) ∧
    uploadExcels tf m y fs none = .error "Token invalide ou expiré" := by
  have hauth : authHeaderValue (some t) = "Bearer " ++ t := by
    unfold authHeaderValue
    rw [if_pos (by simpa [jsTruthyOptStr] using ht)]
    rfl
  have hnone : authHeaderValue none = "" := by
    simp [authHeaderValue, jsTruthyOptStr]
  refine ⟨hauth, hnone, ?_, ?_, ?_, ?_, ?_, ?_⟩
  · unfold alertsAuthHeader
    simp only [jsTruthyOptStr, ne_eq]
    rw [if_pos (by simpa using ht), if_pos (by simpa using ht)]
    simp
  · simp [alertsAuthHeader, jsTruthyOptStr]
  · unfold getMonthSummary
    rw [hauth]
  · unfold getMonthSummary
    rw [hnone]
  · unfold performUploadAndAnalyze
    rw [hnone]
    cases hu : remote.uploadResult with
    | error e => rfl
    | ok u =>
      cases ha : remote.analysisResult with
      | error e => rfl
      | ok d => rfl
  · have h1 : ¬(¬ jsTruthyStr tf ∨ ¬ jsTruthyStr m ∨ y = 0) := by
      intro hcon
      rcases hcon with h | h | h
      · exact h (by simpa [jsTruthyStr] using htf)
      · exact h (by simpa [jsTruthyStr] using hm)
      · exact hy h
    have h2 : ¬ (fs.isEmpty = true) := by simpa using hfs
    have h3 : ¬ jsTruthyOptStr (none : Option String) = true := by decide
    unfold uploadExcels
    rw [if_neg h1, if_neg h2, if_pos h3]

/-- Closed instance of the amended C4 theorem. -/
theorem remote_ops_attach_or_omit_credential_witness :
    authHeaderValue (some "tok") = "Bearer " ++ "tok" ∧
    authHeaderValue none = "" ∧
    alertsAuthHeader (some "tok") = some ("Bearer " ++ "tok") ∧
    alertsAuthHeader none = none ∧
    (getMonthSummary (some "tok") "mars" 2024).auth = "Bearer " ++ "tok" ∧
    (getMonthSummary none "mars" 2024).auth = "" ∧
    (performUploadAndAnalyze none
      ⟨"ventes_journalieres", "mars", 2024, ["a.xlsx"]⟩
      ⟨.ok (), .ok ⟨none, none⟩⟩ ⟨none, none⟩).trace.head? =
      some (Ev.uploadReq "/upload-excel" "" "ventes_journalieres" "mars"
        (jsOfNat 2024) ["a.xlsx"]) ∧
    uploadExcels "achats_journaliers" "mai" 2025 ["b.xlsx"] none =
      .error "Token invalide ou expiré" :=
  remote_ops_attach_or_omit_credential "tok" (by decide) "achats_journaliers"
    "mai" 2025 ["b.xlsx"] ⟨"ventes_journalieres", "mars", 2024, ["a.xlsx"]⟩
    ⟨.ok (), .ok ⟨none, none⟩⟩ ⟨none, none⟩ (by decide) (by decide)
    (by decide) (by decide)

end SageApp
